import Mathlib

/-!
Shallow embedding of the ThreadBrief repository core:
`scripts/feedback_listener.py` (Slack webhook listener) and
`src/daily_digest/distributor.py` (digest distribution engine).

External collaborators (Slack client, formatter text generation, hashing)
are modelled as function parameters; repository modules that are not among
the provided sources (the feedback store and the formatter bucketing) are
modelled from the spec, marked `Modelled from the spec:` on the definition.
-/

namespace ThreadBrief

/-! ## Shared data model -/

/-- A digest-item record persisted in the feedback store, mirroring the
fields constructed in `DigestDistributor._store_digest_item`
(distributor.py lines 226-237). Confidence values are modelled as
rationals. -/
structure DigestItem where
  digest_item_id : String
  run_id : String
  date : String
  team : String
  item_type : String
  title : String
  summary : String
  confidence : ℚ
  slack_message_ts : String
  slack_channel_id : String
deriving DecidableEq, Repr

/-- A recorded feedback event, mirroring the `FeedbackEvent` constructed in
`handle_reaction_added` (feedback_listener.py lines 149-155). -/
structure FeedbackEvent where
  digest_item_id : String
  user_id : String
  team : String
  feedback_type : String
  created_at : String
deriving DecidableEq, Repr

/-! ## Signature verifier (feedback_listener.py lines 49-70) -/

/-- Decimal value of a list of digit characters. -/
def pyDigitsVal (ds : List Char) : Nat :=
  ds.foldl (fun acc d => 10 * acc + (d.toNat - Char.toNat '0')) 0

/-- Models Python `int(s)` on a decimal string: optional surrounding
spaces, optional sign, at least one digit; `none` models the
`ValueError` that `int` raises on any other input (such as the empty
string). -/
def parsePyIntChars (cs : List Char) : Option Int :=
  let cs := cs.dropWhile (fun c => c = ' ')
  let cs := (cs.reverse.dropWhile (fun c => c = ' ')).reverse
  match cs with
  | [] => none
  | c :: rest =>
    let signDigits : Bool × List Char :=
      if c = '-' then (true, rest)
      else if c = '+' then (false, rest)
      else (false, c :: rest)
    let ds := signDigits.2
    if ds.isEmpty then none
    else if ds.all Char.isDigit then
      some (if signDigits.1 then -(pyDigitsVal ds : Int) else (pyDigitsVal ds : Int))
    else none

/-- Models Python `int(s)`; see `parsePyIntChars`. -/
def parsePyInt (s : String) : Option Int := parsePyIntChars s.data

/-- Embedding of `verify_slack_request`. The HMAC-SHA256 hex digest is an
external library call (Python `hmac`/`hashlib`), modelled as the function
parameter `hmacSha256Hex : secret → message → hex digest`. The current
time is modelled at integer resolution by `now`. The two headers are
`Option String` (absent header = `none`); Python `headers.get(k, "")`
is `Option.getD ""`. The result `Except.error ()` models an uncaught
Python exception escaping the function (`int(timestamp)` raising
`ValueError`); `hmac.compare_digest` is string equality. -/
def verify_slack_request (signing_secret : String)
    (hmacSha256Hex : String → String → String) (now : Int)
    (timestampHeader signatureHeader : Option String)
    (rawBody : String) : Except Unit Bool :=
  if signing_secret = "" then
    Except.ok true
  else
    let timestamp := timestampHeader.getD ""
    let signature := signatureHeader.getD ""
    match parsePyInt timestamp with
    | none => Except.error ()
    | some ts =>
      if (now - ts).natAbs > 60 * 5 then
        Except.ok false
      else
        let sig_basestring := "v0:" ++ timestamp ++ ":" ++ rawBody
        let expected_sig := "v0=" ++ hmacSha256Hex signing_secret sig_basestring
        Except.ok (expected_sig = signature)

/-! ## Feedback ingestion (feedback_listener.py lines 101-176) -/

/-- The fields the reaction handlers read out of a Slack reaction event
dict: `event.get("user","")`, `event.get("reaction","")`,
`event.get("item",{}).get("channel","")`, `.get("ts","")`. -/
structure ReactionEvent where
  user : String
  reaction : String
  channel : String
  ts : String
deriving DecidableEq, Repr

/-- Modelled from the spec: the collaborators `FeedbackStore` and
`FeedbackMetrics` live in `src/daily_digest/feedback/`, which is not among
the provided sources. Their read-side interface (spec 4.4 and 4.5) is
modelled as abstract functions: `emoji_to_feedback_type` is a pure lookup
returning the signal kind or none, `get_item_by_message_ts` resolves a
(message ts, channel) reference to a digest item or none,
`check_rate_limit` returns (allowed, remaining), and `is_user_spamming`
is the duplicate-feedback guard for a (user, item) pair. -/
structure FeedbackEnv where
  emoji_to_feedback_type : String → Option String
  get_item_by_message_ts : String → String → Option DigestItem
  check_rate_limit : String → Bool × Int
  is_user_spamming : String → String → Bool

/-- Embedding of `handle_reaction_added` (lines 101-161). The feedback
store state is the list of stored events; `FeedbackStore.store_feedback`
is modelled from the spec (4.5: append-only write returning a store-local
event id, used only for logging here) as a list append. Python's
`if not feedback_type` truthiness test on an `Optional[str]` is
`(ft.getD "") = ""`. -/
def handle_reaction_added (env : FeedbackEnv) (nowIso : String)
    (event : ReactionEvent) (store : List FeedbackEvent) :
    List FeedbackEvent :=
  let user_id := event.user
  let reaction := event.reaction
  let channel_id := event.channel
  let message_ts := event.ts
  let feedback_type := env.emoji_to_feedback_type reaction
  if (feedback_type.getD "") = "" then store
  else
    match env.get_item_by_message_ts message_ts channel_id with
    | none => store
    | some digest_item =>
      let allowed := (env.check_rate_limit user_id).1
      if !allowed then store
      else if env.is_user_spamming user_id digest_item.digest_item_id then store
      else
        store ++ [{ digest_item_id := digest_item.digest_item_id,
                    user_id := user_id,
                    team := digest_item.team,
                    feedback_type := feedback_type.getD "",
                    created_at := nowIso }]

/-- Embedding of `handle_reaction_removed` (lines 164-176): the emoji
lookup is performed for logging only and the store is returned
unchanged. -/
def handle_reaction_removed (env : FeedbackEnv) (event : ReactionEvent)
    (store : List FeedbackEvent) : List FeedbackEvent :=
  let _feedback_type := env.emoji_to_feedback_type event.reaction
  store

/-! ## Webhook router (feedback_listener.py lines 73-98) -/

/-- The fields read out of `data.get("event", {})`. -/
structure EventPayload where
  etype : Option String
  user : String
  reaction : String
  channel : String
  ts : String
deriving DecidableEq, Repr

/-- The empty dict default of `data.get("event", {})`. -/
def EventPayload.empty : EventPayload :=
  { etype := none, user := "", reaction := "", channel := "", ts := "" }

/-- The fields read out of the decoded JSON payload: `data.get("type")`,
`data.get("challenge")`, `data.get("event", {})`. -/
structure WebhookPayload where
  ptype : Option String
  challenge : Option String
  event : Option EventPayload
deriving DecidableEq, Repr

/-- The JSON bodies the endpoint can answer with. -/
inductive ResponseBody where
  | invalidSignature
  | challenge (c : Option String)
  | okTrue
  | serverError
deriving DecidableEq, Repr

/-- Embedding of `handle_slack_event` (lines 73-98). `verification` is the
outcome of `verify_slack_request`; `Except.error` there means the
verifier raised, in which case Flask answers 500 (`serverError`).
Returns ((HTTP status, body), new feedback-store state). -/
def handle_slack_event (env : FeedbackEnv) (verification : Except Unit Bool)
    (payload : WebhookPayload) (nowIso : String)
    (store : List FeedbackEvent) :
    (Nat × ResponseBody) × List FeedbackEvent :=
  match verification with
  | Except.error _ => ((500, ResponseBody.serverError), store)
  | Except.ok false => ((403, ResponseBody.invalidSignature), store)
  | Except.ok true =>
    if payload.ptype = some "url_verification" then
      ((200, ResponseBody.challenge payload.challenge), store)
    else
      let store2 :=
        if payload.ptype = some "event_callback" then
          let event := payload.event.getD EventPayload.empty
          let rev : ReactionEvent :=
            { user := event.user, reaction := event.reaction,
              channel := event.channel, ts := event.ts }
          if event.etype = some "reaction_added" then
            handle_reaction_added env nowIso rev store
          else if event.etype = some "reaction_removed" then
            handle_reaction_removed env rev store
          else store
        else store
      ((200, ResponseBody.okTrue), store2)

/-! ## Distribution engine (src/daily_digest/distributor.py) -/

/-- One formatted digest-item message, mirroring `DigestItemMessage` from
the formatter as consumed by the distributor (fields read at lines
160-174 and 227-234). Blocks are modelled by their serialized text. -/
structure DigestItemMessage where
  digest_item_id : String
  team : String
  item_type : String
  title : String
  text : String
  blocks : String
  confidence : ℚ
deriving DecidableEq, Repr

/-- Opaque orchestrator output (`DigestOutput`); its contents are consumed
only by the abstract formatter functions. -/
structure DigestOutput where
  tag : String
deriving DecidableEq, Repr

/-- A per-team analysis: its name and the formatted item messages the
formatter derives from it. The analysis internals are external to the
core (spec section 6). -/
structure TeamAnalysis where
  team_name : String
  items : List DigestItemMessage
deriving DecidableEq, Repr

/-- One call made on the external Slack client: `post_message(channel,
text, blocks)` or `send_dm(user_id, text)`. -/
inductive SlackCall where
  | postMessage (channel : String) (text : String) (blocks : Option String)
  | sendDM (user_id : String) (text : String)
deriving DecidableEq, Repr

/-- The response dict of a successful client call: `ok` and the message
timestamp (`result.get("ts")`, possibly absent). -/
structure PostResult where
  ok : Bool
  ts : Option String
deriving DecidableEq, Repr

/-- The behavior of the external Slack client: given the calls already
made (the history) and the call now being made, either return a response
dict or raise (`Except.error`). -/
def Oracle : Type :=
  List SlackCall → SlackCall → Except String PostResult

/-- External side effects accumulated during a distribution run: the
calls made on the Slack client and the digest items written to the
feedback store. -/
structure DistState where
  calls : List SlackCall
  stored : List DigestItem
deriving DecidableEq, Repr

/-- A `self.client.post_message(...)` call: the call is recorded as made
and the oracle decides its outcome. -/
def post_message (oracle : Oracle) (st : DistState) (channel text : String)
    (blocks : Option String) : Except String PostResult × DistState :=
  let call := SlackCall.postMessage channel text blocks
  (oracle st.calls call, { st with calls := st.calls ++ [call] })

/-- A `self.client.send_dm(...)` call. -/
def send_dm (oracle : Oracle) (st : DistState) (user_id text : String) :
    Except String PostResult × DistState :=
  let call := SlackCall.sendDM user_id text
  (oracle st.calls call, { st with calls := st.calls ++ [call] })

/-- The configuration fields the distributor reads (`DigestConfig`):
the main digest channel, the team-name-to-channel map, and the
leadership recipients. -/
structure DigestConfig where
  digest_channel : String
  channels : List (String × String)
  leadership_users : List String
deriving DecidableEq, Repr

/-- The formatter as consumed by the distributor. The text-producing
methods are external collaborators (message content is a non-goal of the
spec) and are abstract functions; the two confidence thresholds configure
the bucketing of `format_digest_items`. -/
structure DigestFormatter where
  high_threshold : ℚ
  low_threshold : ℚ
  format_header_message : DigestOutput → List (String × TeamAnalysis) → String × String
  format_team_details : TeamAnalysis → String
  format_leadership_dm : DigestOutput → List (String × TeamAnalysis) → String
  format_main_digest : DigestOutput → List (String × TeamAnalysis) → String × String

/-- Confidence override lookup: the optional `item_confidences` dict maps
a digest-item id to an overriding confidence. -/
def effective_confidence (item_confidences : Option (List (String × ℚ)))
    (m : DigestItemMessage) : ℚ :=
  (((item_confidences.getD []).lookup m.digest_item_id).getD m.confidence)

/-- Modelled from the spec: `DigestFormatter.format_digest_items` lives in
`src/daily_digest/formatter.py`, which is not among the provided sources.
Spec 4.6 step 2: partition all digest items across all teams into three
buckets by confidence against the two configured thresholds, in stable
generation order: `confidence ≥ highThreshold` → high bucket;
`lowThreshold ≤ confidence < highThreshold` → low bucket;
`confidence < lowThreshold` → excluded. Confidence overrides from the
feedback processor replace an item's stated confidence. -/
def format_digest_items (f : DigestFormatter)
    (team_analyses : List (String × TeamAnalysis)) (_run_id : String)
    (item_confidences : Option (List (String × ℚ))) :
    List DigestItemMessage × List DigestItemMessage × List DigestItemMessage :=
  let msgs := (team_analyses.map (fun p => p.2.items)).flatten
  let msgs := msgs.map
    (fun m => { m with confidence := effective_confidence item_confidences m })
  ( msgs.filter (fun m => f.high_threshold ≤ m.confidence),
    msgs.filter (fun m => f.low_threshold ≤ m.confidence ∧ m.confidence < f.high_threshold),
    msgs.filter (fun m => m.confidence < f.low_threshold) )

/-- The distributor: the Slack client is passed separately as an
`Oracle`; the optional feedback store of `__init__` is modelled by the
presence flag `hasFeedbackStore`, and the module-level import guard
`FEEDBACK_AVAILABLE` by `feedbackAvailable`. -/
structure DigestDistributor where
  config : DigestConfig
  formatter : DigestFormatter
  hasFeedbackStore : Bool
  feedbackAvailable : Bool

/-- Embedding of `_store_digest_item` (lines 215-238): no-op unless a
feedback store is configured and the feedback module imported; otherwise
appends a `DigestItem` built from the item message and the returned
message timestamp. `today` models `datetime.now().strftime("%Y-%m-%d")`. -/
def store_digest_item (d : DigestDistributor) (item_msg : DigestItemMessage)
    (message_ts channel_id run_id today : String) (st : DistState) : DistState :=
  if !d.hasFeedbackStore || !d.feedbackAvailable then st
  else
    { st with stored := st.stored ++
        [{ digest_item_id := item_msg.digest_item_id,
           run_id := run_id,
           date := today,
           team := item_msg.team,
           item_type := item_msg.item_type,
           title := item_msg.title,
           summary := item_msg.text,
           confidence := item_msg.confidence,
           slack_message_ts := message_ts,
           slack_channel_id := channel_id }] }

/-- One entry of `results["items"]` (lines 169-175 and 203-209). -/
structure ItemPostEntry where
  digest_item_id : String
  message_ts : Option String
  ok : Bool
  confidence : ℚ
  sect : String
deriving DecidableEq, Repr

/-- The per-item posting loop shared by the high-confidence section
(lines 156-177, `sect = "main"`) and the low-confidence section (lines
191-211, `sect = "fyi"`): post the item; on a raise, only log (the item
contributes no entry anywhere); on a response, store the digest item when
a feedback store is present and the response is ok, and record the item
entry. Returns (state, entries appended to `results["items"]`, amount
added to `results["items_stored"]`). -/
def post_items_loop (d : DigestDistributor) (oracle : Oracle)
    (channel run_id today sect : String) (st : DistState) :
    List DigestItemMessage → DistState × List ItemPostEntry × Nat
  | [] => (st, [], 0)
  | item_msg :: rest =>
    let pr := post_message oracle st channel item_msg.text (some item_msg.blocks)
    match pr.1 with
    | Except.error _ => post_items_loop d oracle channel run_id today sect pr.2 rest
    | Except.ok result =>
      let doStore := d.hasFeedbackStore && result.ok
      let st2 :=
        if doStore then
          store_digest_item d item_msg (result.ts.getD "") channel run_id today pr.2
        else pr.2
      let entry : ItemPostEntry :=
        { digest_item_id := item_msg.digest_item_id,
          message_ts := result.ts,
          ok := result.ok,
          confidence := item_msg.confidence,
          sect := sect }
      let recRun := post_items_loop d oracle channel run_id today sect st2 rest
      (recRun.1, entry :: recRun.2.1, (if doStore then 1 else 0) + recRun.2.2)

/-- The value of `_post_main_digest_with_items`s results dict. -/
structure MainResults where
  header : PostResult
  items : List ItemPostEntry
  items_stored : Nat
deriving DecidableEq, Repr

/-- Text of the low-confidence divider message (line 183). -/
def divider_text : String := "📋 Lower Confidence / FYI"

/-- Serialized blocks of the low-confidence divider message (lines
184-187). -/
def divider_blocks : String :=
  "*📋 Lower Confidence / FYI*\n_These items may need verification:_"

/-- Embedding of `_post_main_digest_with_items` (lines 121-213): post the
header (a raise here propagates), bucket the items, post high-confidence
items, then, if the low bucket is non-empty, post the divider (a raise
here also propagates — it is outside any try) and the low-confidence
items. Excluded items are never posted. -/
def post_main_digest_with_items (d : DigestDistributor) (oracle : Oracle)
    (output : DigestOutput) (team_analyses : List (String × TeamAnalysis))
    (run_id today : String) (item_confidences : Option (List (String × ℚ)))
    (st : DistState) : Except String MainResults × DistState :=
  let channel := d.config.digest_channel
  let hdr := d.formatter.format_header_message output team_analyses
  let hpost := post_message oracle st channel hdr.1 (some hdr.2)
  match hpost.1 with
  | Except.error e => (Except.error e, hpost.2)
  | Except.ok header_result =>
    let buckets := format_digest_items d.formatter team_analyses run_id item_confidences
    let highRun := post_items_loop d oracle channel run_id today "main" hpost.2 buckets.1
    if buckets.2.1.isEmpty then
      (Except.ok { header := header_result, items := highRun.2.1,
                   items_stored := highRun.2.2 }, highRun.1)
    else
      let dpost := post_message oracle highRun.1 channel divider_text (some divider_blocks)
      match dpost.1 with
      | Except.error e => (Except.error e, dpost.2)
      | Except.ok _ =>
        let lowRun := post_items_loop d oracle channel run_id today "fyi" dpost.2 buckets.2.1
        (Except.ok { header := header_result,
                     items := highRun.2.1 ++ lowRun.2.1,
                     items_stored := highRun.2.2 + lowRun.2.2 }, lowRun.1)

/-- Outcome recorded in `results["team_posts"]` for one team: either the
no-channel dict `{"ok": False, "error": "no_channel_configured"}` or the
client response. -/
inductive TeamPostOutcome where
  | noChannel
  | posted (r : PostResult)
deriving DecidableEq, Repr

/-- Embedding of `_post_team_details` (lines 240-252): a team whose
configured channel is missing (or empty, Python falsiness) is skipped
with the no-channel outcome; otherwise the details message is posted to
its channel. -/
def post_team_details (d : DigestDistributor) (oracle : Oracle)
    (team_analysis : TeamAnalysis) (st : DistState) :
    Except String TeamPostOutcome × DistState :=
  let channel_id := ((d.config.channels).lookup team_analysis.team_name).getD ""
  if channel_id = "" then
    (Except.ok TeamPostOutcome.noChannel, st)
  else
    let details := d.formatter.format_team_details team_analysis
    let pr := post_message oracle st channel_id details none
    match pr.1 with
    | Except.error e => (Except.error e, pr.2)
    | Except.ok r => (Except.ok (TeamPostOutcome.posted r), pr.2)

/-- Embedding of `_send_leadership_dm` (lines 254-266). -/
def send_leadership_dm (d : DigestDistributor) (oracle : Oracle)
    (output : DigestOutput) (team_analyses : List (String × TeamAnalysis))
    (user_id : String) (st : DistState) : Except String PostResult × DistState :=
  let summary := d.formatter.format_leadership_dm output team_analyses
  send_dm oracle st user_id summary

/-- The team loop of `distribute` (lines 98-106): each team is posted
inside its own try; a raise is caught and appended to the error list,
and the loop continues. Returns (state, team_posts entries, errors), in
iteration order. -/
def teams_loop (d : DigestDistributor) (oracle : Oracle) (st : DistState) :
    List (String × TeamAnalysis) → DistState × List (String × TeamPostOutcome) × List String
  | [] => (st, [], [])
  | p :: rest =>
    let tr := post_team_details d oracle p.2 st
    let recRun := teams_loop d oracle tr.2 rest
    match tr.1 with
    | Except.ok tp => (recRun.1, (p.1, tp) :: recRun.2.1, recRun.2.2)
    | Except.error e =>
      (recRun.1, recRun.2.1,
        ("Failed to post to " ++ p.1 ++ ": " ++ e) :: recRun.2.2)

/-- The leadership-DM loop of `distribute` (lines 109-117), with the same
per-recipient fault isolation. -/
def dms_loop (d : DigestDistributor) (oracle : Oracle) (output : DigestOutput)
    (team_analyses : List (String × TeamAnalysis)) (st : DistState) :
    List String → DistState × List (String × PostResult) × List String
  | [] => (st, [], [])
  | user_id :: rest =>
    let dr := send_leadership_dm d oracle output team_analyses user_id st
    let recRun := dms_loop d oracle output team_analyses dr.2 rest
    match dr.1 with
    | Except.ok r => (recRun.1, (user_id, r) :: recRun.2.1, recRun.2.2)
    | Except.error e =>
      (recRun.1, recRun.2.1, ("Failed to DM " ++ user_id ++ ": " ++ e) :: recRun.2.2)

/-- The returned `results` dict of `distribute` (lines 70-78). -/
structure DistributionResult where
  run_id : String
  main_post : Option PostResult
  item_posts : List ItemPostEntry
  team_posts : List (String × TeamPostOutcome)
  dms : List (String × PostResult)
  errors : List String
  items_stored : Nat
deriving DecidableEq, Repr

/-- Embedding of `distribute` (lines 47-119): main section in a try (on a
raise the main error is recorded and `main_post`/`item_posts`/
`items_stored` keep their initial values), then the fault-isolated team
loop, then the fault-isolated DM loop. `now_run_id` models the
`datetime.now().strftime(...)` default for a missing run id. -/
def distribute (d : DigestDistributor) (oracle : Oracle) (output : DigestOutput)
    (team_analyses : List (String × TeamAnalysis)) (run_id_opt : Option String)
    (item_confidences : Option (List (String × ℚ))) (now_run_id today : String)
    (st : DistState) : DistributionResult × DistState :=
  let run_id := run_id_opt.getD now_run_id
  let mainRun :=
    post_main_digest_with_items d oracle output team_analyses run_id today
      item_confidences st
  let mainParts :
      Option PostResult × List ItemPostEntry × Nat × List String :=
    match mainRun.1 with
    | Except.ok m => (some m.header, m.items, m.items_stored, [])
    | Except.error e => (none, [], 0, ["Failed to post main digest: " ++ e])
  let teamsRun := teams_loop d oracle mainRun.2 team_analyses
  let dmsRun :=
    dms_loop d oracle output team_analyses teamsRun.1 d.config.leadership_users
  ({ run_id := run_id,
     main_post := mainParts.1,
     item_posts := mainParts.2.1,
     team_posts := teamsRun.2.1,
     dms := dmsRun.2.1,
     errors := mainParts.2.2.2 ++ teamsRun.2.2 ++ dmsRun.2.2,
     items_stored := mainParts.2.2.1 }, dmsRun.1)

/-- One entry of the preview item lists (lines 309-316). -/
structure PreviewItem where
  id : String
  text : String
  confidence : ℚ
deriving DecidableEq, Repr

/-- The returned dict of `preview` (lines 299-320). -/
structure PreviewResult where
  run_id : String
  main_post_text : String
  main_post_blocks : String
  header_text : String
  header_blocks : String
  high_confidence_items : List PreviewItem
  low_confidence_items : List PreviewItem
  excluded_items : List DigestItemMessage
  team_details : List (String × String)
  leadership_dm : String
deriving DecidableEq, Repr

/-- Embedding of `preview` (lines 268-320): formatting and bucketing
only. It receives the client oracle and the effect state like
`distribute` does (the Python method has `self.client` in scope) but its
body never invokes the client or the store. -/
def preview (d : DigestDistributor) (_oracle : Oracle) (output : DigestOutput)
    (team_analyses : List (String × TeamAnalysis)) (run_id_opt : Option String)
    (item_confidences : Option (List (String × ℚ))) (now_run_id : String)
    (st : DistState) : PreviewResult × DistState :=
  let run_id := run_id_opt.getD now_run_id
  let hdr := d.formatter.format_header_message output team_analyses
  let buckets := format_digest_items d.formatter team_analyses run_id item_confidences
  let legacy := d.formatter.format_main_digest output team_analyses
  let team_details :=
    team_analyses.map (fun p => (p.1, d.formatter.format_team_details p.2))
  let leadership_dm := d.formatter.format_leadership_dm output team_analyses
  ({ run_id := run_id,
     main_post_text := legacy.1,
     main_post_blocks := legacy.2,
     header_text := hdr.1,
     header_blocks := hdr.2,
     high_confidence_items :=
       buckets.1.map (fun m => { id := m.digest_item_id, text := m.text,
                                 confidence := m.confidence }),
     low_confidence_items :=
       buckets.2.1.map (fun m => { id := m.digest_item_id, text := m.text,
                                   confidence := m.confidence }),
     excluded_items := buckets.2.2,
     team_details := team_details,
     leadership_dm := leadership_dm }, st)

/-- The client call posting one item message to `channel`. -/
def itemCall (channel : String) (m : DigestItemMessage) : SlackCall :=
  SlackCall.postMessage channel m.text (some m.blocks)

/-- The client call posting the header message. -/
def headerCall (d : DigestDistributor) (output : DigestOutput)
    (team_analyses : List (String × TeamAnalysis)) : SlackCall :=
  SlackCall.postMessage d.config.digest_channel
    (d.formatter.format_header_message output team_analyses).1
    (some (d.formatter.format_header_message output team_analyses).2)

/-- The client call posting the low-confidence divider message. -/
def dividerCall (d : DigestDistributor) : SlackCall :=
  SlackCall.postMessage d.config.digest_channel divider_text (some divider_blocks)

/-- The same distributor with a feedback store configured. -/
def withStore (d : DigestDistributor) : DigestDistributor :=
  { d with hasFeedbackStore := true }

/-- The same distributor constructed with `feedback_store = None`. -/
def withoutStore (d : DigestDistributor) : DigestDistributor :=
  { d with hasFeedbackStore := false }

/-! ## Concrete instances used by witnesses and counterexamples -/

/-- An oracle whose every call succeeds with `ok := true`; the timestamp
of each response is chosen by `tsf` from the call history and the call. -/
def okOracle (tsf : List SlackCall → SlackCall → Option String) : Oracle :=
  fun h c => Except.ok { ok := true, ts := tsf h c }

/-- An oracle that raises on exactly the call of index `n` (the history
has length `n` at that moment) and answers every other call with
`ok := true`. -/
def failAt (n : Nat) : Oracle :=
  fun h _ =>
    if h.length = n then Except.error "boom"
    else Except.ok { ok := true, ts := some "ts" }

/-- A concrete formatter with the scenario thresholds high = 0.7,
low = 0.3. -/
def cFormatter : DigestFormatter :=
  { high_threshold := mkRat 7 10,
    low_threshold := mkRat 3 10,
    format_header_message := fun _ _ => ("header", "header-blocks"),
    format_team_details := fun ta => "details for " ++ ta.team_name,
    format_leadership_dm := fun _ _ => "leadership summary",
    format_main_digest := fun _ _ => ("legacy", "legacy-blocks") }

/-- A concrete configuration: one main channel, no team channels, no
leadership recipients. -/
def cConfig : DigestConfig :=
  { digest_channel := "CMAIN", channels := [], leadership_users := [] }

/-- A concrete distributor with a feedback store configured. -/
def cDist : DigestDistributor :=
  { config := cConfig, formatter := cFormatter,
    hasFeedbackStore := true, feedbackAvailable := true }

/-- A concrete digest output. -/
def cOut : DigestOutput := { tag := "run" }

/-- A concrete item message named `i` with confidence `conf`. -/
def cMsg (i : String) (conf : ℚ) : DigestItemMessage :=
  { digest_item_id := i, team := "teamA", item_type := "update",
    title := "title " ++ i, text := "text " ++ i, blocks := "blocks " ++ i,
    confidence := conf }

/-- A five-item single-team batch, all high confidence (0.9). -/
def cTasFive : List (String × TeamAnalysis) :=
  [("teamA",
    { team_name := "teamA",
      items := [cMsg "a" (mkRat 9 10), cMsg "b" (mkRat 9 10),
                cMsg "c" (mkRat 9 10), cMsg "d" (mkRat 9 10),
                cMsg "e" (mkRat 9 10)] })]

/-- The scenario-C batch: items of confidence 0.9, 0.5, 0.1. -/
def cTasScenario : List (String × TeamAnalysis) :=
  [("teamA",
    { team_name := "teamA",
      items := [cMsg "a" (mkRat 9 10), cMsg "b" (mkRat 5 10),
                cMsg "c" (mkRat 1 10)] })]

/-- A concrete digest item as stored in the feedback store. -/
def cStoredItem : DigestItem :=
  { digest_item_id := "item-1", run_id := "run1", date := "2026-10-12",
    team := "teamA", item_type := "update", title := "t", summary := "s",
    confidence := mkRat 9 10, slack_message_ts := "111.222",
    slack_channel_id := "CMAIN" }

/-- A concrete ingestion environment on which every pipeline check
passes for the reaction of `cReactionEvent`. -/
def cEnv : FeedbackEnv :=
  { emoji_to_feedback_type :=
      fun r => if r = "white_check_mark" then some "positive" else none,
    get_item_by_message_ts :=
      fun ts ch => if ts = "111.222" && ch = "CMAIN" then some cStoredItem else none,
    check_rate_limit := fun _ => (true, 9),
    is_user_spamming := fun _ _ => false }

/-- A concrete reaction event on the tracked message of `cStoredItem`. -/
def cReactionEvent : ReactionEvent :=
  { user := "U1", reaction := "white_check_mark", channel := "CMAIN",
    ts := "111.222" }

end ThreadBrief

namespace ThreadBrief

/-! ## Claim theorems: signature verifier and webhook listener -/

/-- C2: when a signing secret is configured and the timestamp header is a
numeric string, `verify_slack_request` returns true iff the timestamp is
within 300 seconds of now and the signature header equals `v0=` followed
by the hex HMAC-SHA256 of `v0:{timestamp}:{rawBody}` under the secret
(the comparison `hmac.compare_digest` is modelled as string equality);
with no secret configured it returns true for every request. -/
theorem C2_verify_iff (secret : String) (hmacF : String → String → String)
    (now ts : Int) (tsStr : String) (sigHeader : Option String) (body : String)
    (hsecret : secret ≠ "") (hts : parsePyInt tsStr = some ts) :
    (verify_slack_request secret hmacF now (some tsStr) sigHeader body = Except.ok true
      ↔ ((now - ts).natAbs ≤ 300 ∧
          sigHeader.getD "" = "v0=" ++ hmacF secret ("v0:" ++ tsStr ++ ":" ++ body)))
    ∧ (∀ tsh sh : Option String, ∀ b : String,
        verify_slack_request "" hmacF now tsh sh b = Except.ok true) := by
  constructor
  · simp only [verify_slack_request, if_neg hsecret, Option.getD_some, hts]
    by_cases h : (now - ts).natAbs > 60 * 5
    · simp only [if_pos h]
      constructor
      · intro hc; exact absurd hc (by simp)
      · intro hc; omega
    · simp only [if_neg h]
      constructor
      · intro hc
        refine ⟨by omega, ?_⟩
        have : ("v0=" ++ hmacF secret ("v0:" ++ tsStr ++ ":" ++ body)
            = sigHeader.getD "") = True := by
          simpa using congrArg (fun x : Except Unit Bool =>
            x = Except.ok true) hc
        exact (this ▸ trivial).symm
      · intro hc
        simp [hc.2]
  · intro tsh sh b
    simp [verify_slack_request]

/-- C2 witness. -/
theorem C2_verify_iff_witness :
    (verify_slack_request "s" (fun _ _ => "d") 100 (some "100")
        (some "v0=d") "b" = Except.ok true)
    ∧ verify_slack_request "" (fun _ _ => "d") 7 none none "z" = Except.ok true := by
  refine ⟨?_, ?_⟩
  · exact (C2_verify_iff "s" (fun _ _ => "d") 100 100 "100" (some "v0=d") "b"
      (by decide) (by decide)).1.mpr ⟨by decide, by decide⟩
  · exact (C2_verify_iff "s" (fun _ _ => "d") 7 7 "7" (some "x") "q"
      (by decide) (by decide)).2 none none "z"

/-- C3: the claim says an absent or non-numeric timestamp header makes
`verify_slack_request` return false; the code instead evaluates
`int(timestamp)` on it, which raises `ValueError` (modelled as
`Except.error ()`), escaping the verifier, so Flask answers 500 rather
than the 403 authentication-failure response. Evaluated here on an
absent header and on the non-numeric header `abc`. -/
theorem C3_missing_timestamp_raises :
    verify_slack_request "secret" (fun _ _ => "h") 1000 none (some "v0=h") "b"
        = Except.error ()
    ∧ verify_slack_request "secret" (fun _ _ => "h") 1000 (some "abc")
        (some "v0=h") "b" = Except.error () :=
  ⟨rfl, rfl⟩

/-- C4: the reaction_added ingestion pipeline drops (leaving the store
untouched, no partial write) at the first failing step — unmapped emoji,
unresolved digest item, exceeded rate limit, or duplicate feedback — and
only when all checks pass does it append exactly one FeedbackEvent
carrying the current timestamp. The collaborator checks are abstract
(`FeedbackEnv`); the store write is the spec-modelled append. -/
theorem C4_ingestion_pipeline (env : FeedbackEnv) (nowIso : String)
    (ev : ReactionEvent) (store : List FeedbackEvent) :
    ((env.emoji_to_feedback_type ev.reaction).getD "" = "" →
      handle_reaction_added env nowIso ev store = store)
    ∧ (∀ ft, env.emoji_to_feedback_type ev.reaction = some ft → ft ≠ "" →
        env.get_item_by_message_ts ev.ts ev.channel = none →
        handle_reaction_added env nowIso ev store = store)
    ∧ (∀ ft it, env.emoji_to_feedback_type ev.reaction = some ft → ft ≠ "" →
        env.get_item_by_message_ts ev.ts ev.channel = some it →
        (env.check_rate_limit ev.user).1 = false →
        handle_reaction_added env nowIso ev store = store)
    ∧ (∀ ft it, env.emoji_to_feedback_type ev.reaction = some ft → ft ≠ "" →
        env.get_item_by_message_ts ev.ts ev.channel = some it →
        (env.check_rate_limit ev.user).1 = true →
        env.is_user_spamming ev.user it.digest_item_id = true →
        handle_reaction_added env nowIso ev store = store)
    ∧ (∀ ft it, env.emoji_to_feedback_type ev.reaction = some ft → ft ≠ "" →
        env.get_item_by_message_ts ev.ts ev.channel = some it →
        (env.check_rate_limit ev.user).1 = true →
        env.is_user_spamming ev.user it.digest_item_id = false →
        handle_reaction_added env nowIso ev store =
          store ++ [{ digest_item_id := it.digest_item_id, user_id := ev.user,
                      team := it.team, feedback_type := ft,
                      created_at := nowIso }]) := by
  refine ⟨?_, ?_, ?_, ?_, ?_⟩
  · intro h
    simp [handle_reaction_added, h]
  · intro ft hft hne hit
    simp [handle_reaction_added, hft, Option.getD_some, hne, hit]
  · intro ft it hft hne hit hrl
    simp [handle_reaction_added, hft, Option.getD_some, hne, hit, hrl]
  · intro ft it hft hne hit hrl hspam
    simp [handle_reaction_added, hft, Option.getD_some, hne, hit, hrl, hspam]
  · intro ft it hft hne hit hrl hspam
    simp [handle_reaction_added, hft, Option.getD_some, hne, hit, hrl, hspam]

/-- C4 witness: on `cEnv` all checks pass and exactly the one event is
appended. -/
theorem C4_ingestion_pipeline_witness :
    handle_reaction_added cEnv "2026-10-12T08:00:00" cReactionEvent [] =
      [{ digest_item_id := "item-1", user_id := "U1", team := "teamA",
         feedback_type := "positive", created_at := "2026-10-12T08:00:00" }] :=
  (C4_ingestion_pipeline cEnv "2026-10-12T08:00:00" cReactionEvent
      []).2.2.2.2 "positive" cStoredItem (by decide) (by decide) (by decide)
    (by decide) (by decide)

/-- C5: a request failing signature verification is answered 403 with no
store change; a verified `url_verification` payload is answered 200
echoing the challenge field; every other verified payload is answered
200 with the ok body. -/
theorem C5_webhook_responses (env : FeedbackEnv) (payload : WebhookPayload)
    (nowIso : String) (store : List FeedbackEvent) :
    (handle_slack_event env (Except.ok false) payload nowIso store =
        ((403, ResponseBody.invalidSignature), store))
    ∧ (payload.ptype = some "url_verification" →
        handle_slack_event env (Except.ok true) payload nowIso store =
          ((200, ResponseBody.challenge payload.challenge), store))
    ∧ (payload.ptype ≠ some "url_verification" →
        (handle_slack_event env (Except.ok true) payload nowIso store).1 =
          (200, ResponseBody.okTrue)) := by
  refine ⟨rfl, ?_, ?_⟩
  · intro h
    simp [handle_slack_event, h]
  · intro h
    simp [handle_slack_event, h]

/-- C5 witness: a rejected request, a challenge echo, and an
event-callback acknowledgment. -/
theorem C5_webhook_responses_witness :
    (handle_slack_event cEnv (Except.ok false)
        { ptype := some "event_callback", challenge := none, event := none }
        "t0" [] = ((403, ResponseBody.invalidSignature), []))
    ∧ (handle_slack_event cEnv (Except.ok true)
        { ptype := some "url_verification", challenge := some "ch-42", event := none }
        "t0" [] = ((200, ResponseBody.challenge (some "ch-42")), []))
    ∧ ((handle_slack_event cEnv (Except.ok true)
        { ptype := some "event_callback", challenge := none, event := none }
        "t0" []).1 = (200, ResponseBody.okTrue)) :=
  ⟨(C5_webhook_responses cEnv
      { ptype := some "event_callback", challenge := none, event := none }
      "t0" []).1,
   (C5_webhook_responses cEnv
      { ptype := some "url_verification", challenge := some "ch-42", event := none }
      "t0" []).2.1 (by decide),
   (C5_webhook_responses cEnv
      { ptype := some "event_callback", challenge := none, event := none }
      "t0" []).2.2 (by decide)⟩

/-- C6: handling reaction_removed performs only the emoji lookup and
leaves the feedback store exactly as it was. -/
theorem C6_reaction_removed_frame (env : FeedbackEnv) (ev : ReactionEvent)
    (store : List FeedbackEvent) :
    handle_reaction_removed env ev store = store := rfl

/-- C6 witness. -/
theorem C6_reaction_removed_frame_witness :
    handle_reaction_removed cEnv cReactionEvent
      [{ digest_item_id := "item-1", user_id := "U1", team := "teamA",
         feedback_type := "positive", created_at := "t0" }] =
      [{ digest_item_id := "item-1", user_id := "U1", team := "teamA",
         feedback_type := "positive", created_at := "t0" }] :=
  C6_reaction_removed_frame cEnv cReactionEvent _

/-! ## Helper lemmas about the distribution engine -/

theorem post_message_fst (oracle : Oracle) (st : DistState) (ch t : String)
    (b : Option String) :
    (post_message oracle st ch t b).1 = oracle st.calls (SlackCall.postMessage ch t b) :=
  rfl

theorem post_message_snd_calls (oracle : Oracle) (st : DistState) (ch t : String)
    (b : Option String) :
    (post_message oracle st ch t b).2.calls = st.calls ++ [SlackCall.postMessage ch t b] :=
  rfl

theorem post_message_snd_stored (oracle : Oracle) (st : DistState) (ch t : String)
    (b : Option String) :
    (post_message oracle st ch t b).2.stored = st.stored :=
  rfl

theorem store_digest_item_calls (d : DigestDistributor) (m : DigestItemMessage)
    (ts ch rid today : String) (st : DistState) :
    (store_digest_item d m ts ch rid today st).calls = st.calls := by
  unfold store_digest_item
  split <;> rfl

theorem store_digest_item_stored_len (d : DigestDistributor) (m : DigestItemMessage)
    (ts ch rid today : String) (st : DistState) :
    (store_digest_item d m ts ch rid today st).stored.length =
      st.stored.length + (if d.hasFeedbackStore && d.feedbackAvailable then 1 else 0) := by
  unfold store_digest_item
  cases hs : d.hasFeedbackStore <;> cases ha : d.feedbackAvailable <;> simp

theorem store_digest_item_noStore (d : DigestDistributor) (m : DigestItemMessage)
    (ts ch rid today : String) (st : DistState) (h : d.hasFeedbackStore = false) :
    store_digest_item d m ts ch rid today st = st := by
  unfold store_digest_item
  simp [h]

theorem post_items_loop_calls (d : DigestDistributor) (oracle : Oracle)
    (ch rid today sect : String) :
    ∀ (items : List DigestItemMessage) (st : DistState),
      ((post_items_loop d oracle ch rid today sect st items).1).calls
        = st.calls ++ items.map (itemCall ch) := by
  intro items
  induction items with
  | nil => intro st; simp [post_items_loop]
  | cons m rest ih =>
    intro st
    simp only [post_items_loop]
    cases h : (post_message oracle st ch m.text (some m.blocks)).1 with
    | error e =>
      simp only [h]
      rw [ih]
      simp [post_message, itemCall]
    | ok r =>
      simp only [h]
      rw [ih]
      have hc : (if d.hasFeedbackStore && r.ok then
          store_digest_item d m (r.ts.getD "") ch rid today
            (post_message oracle st ch m.text (some m.blocks)).2
        else (post_message oracle st ch m.text (some m.blocks)).2).calls
          = st.calls ++ [itemCall ch m] := by
        split <;> simp [store_digest_item_calls, post_message, itemCall]
      rw [hc]
      simp [itemCall]

theorem post_items_loop_okOracle (d : DigestDistributor)
    (tsf : List SlackCall → SlackCall → Option String)
    (ch rid today sect : String) :
    ∀ (items : List DigestItemMessage) (st : DistState),
      ((post_items_loop d (okOracle tsf) ch rid today sect st items).2.1).map
          (fun e => (e.digest_item_id, e.ok, e.sect))
        = items.map (fun m => (m.digest_item_id, true, sect))
      ∧ (post_items_loop d (okOracle tsf) ch rid today sect st items).2.2
        = (if d.hasFeedbackStore then items.length else 0)
      ∧ ((post_items_loop d (okOracle tsf) ch rid today sect st items).1).stored.length
        = st.stored.length +
          (if d.hasFeedbackStore && d.feedbackAvailable then items.length else 0) := by
  intro items
  induction items with
  | nil => intro st; simp [post_items_loop]
  | cons m rest ih =>
    intro st
    simp only [post_items_loop, post_message_fst, okOracle]
    dsimp only
    have hrec := ih (if (d.hasFeedbackStore && true) = true then
        store_digest_item d m ((tsf st.calls (SlackCall.postMessage ch m.text
          (some m.blocks))).getD "") ch rid today
          (post_message (okOracle tsf) st ch m.text (some m.blocks)).2
      else (post_message (okOracle tsf) st ch m.text (some m.blocks)).2)
    refine ⟨?_, ?_, ?_⟩
    · simp only [List.map_cons]
      rw [hrec.1]
    · rw [hrec.2.1]
      cases hs : d.hasFeedbackStore <;> simp [List.length_cons] <;> omega
    · rw [hrec.2.2]
      cases hs : d.hasFeedbackStore <;> cases ha : d.feedbackAvailable <;>
        simp [store_digest_item_stored_len, post_message_snd_stored, hs, ha] <;>
        omega

theorem post_items_loop_count_ok (d : DigestDistributor) (oracle : Oracle)
    (ch rid today sect : String) (hs : d.hasFeedbackStore = true) :
    ∀ (items : List DigestItemMessage) (st : DistState),
      (post_items_loop d oracle ch rid today sect st items).2.2
        = ((post_items_loop d oracle ch rid today sect st items).2.1).countP
            (fun e => e.ok) := by
  intro items
  induction items with
  | nil => intro st; simp [post_items_loop]
  | cons m rest ih =>
    intro st
    simp only [post_items_loop]
    cases h : (post_message oracle st ch m.text (some m.blocks)).1 with
    | error e => simp only [h]; exact ih _
    | ok r =>
      simp only [h, hs, Bool.true_and]
      rw [ih]
      rw [List.countP_cons]
      cases hro : r.ok <;> simp [hro] <;> omega

theorem post_items_loop_stored_len (d : DigestDistributor) (oracle : Oracle)
    (ch rid today sect : String) (hs : d.hasFeedbackStore = true) :
    ∀ (items : List DigestItemMessage) (st : DistState),
      ((post_items_loop d oracle ch rid today sect st items).1).stored.length
        = st.stored.length +
          (if d.feedbackAvailable then
            (post_items_loop d oracle ch rid today sect st items).2.2 else 0) := by
  intro items
  induction items with
  | nil => intro st; simp [post_items_loop]
  | cons m rest ih =>
    intro st
    simp only [post_items_loop]
    cases h : (post_message oracle st ch m.text (some m.blocks)).1 with
    | error e =>
      simp only [h]
      rw [ih]
      simp [post_message_snd_stored]
    | ok r =>
      simp only [h, hs, Bool.true_and]
      rw [ih]
      have h2 : (if r.ok then
          store_digest_item d m (r.ts.getD "") ch rid today
            (post_message oracle st ch m.text (some m.blocks)).2
        else (post_message oracle st ch m.text (some m.blocks)).2).stored.length
          = st.stored.length +
            (if d.feedbackAvailable then (if r.ok then 1 else 0) else 0) := by
        cases hro : r.ok <;> cases ha : d.feedbackAvailable <;>
          simp [store_digest_item_stored_len, post_message_snd_stored, hs, ha]
      rw [h2]
      cases ha : d.feedbackAvailable <;> cases hro : r.ok <;> simp [ha, hro] <;> omega

theorem post_items_loop_noStore (d : DigestDistributor) (oracle : Oracle)
    (ch rid today sect : String) (hs : d.hasFeedbackStore = false) :
    ∀ (items : List DigestItemMessage) (st : DistState),
      (post_items_loop d oracle ch rid today sect st items).2.2 = 0
      ∧ ((post_items_loop d oracle ch rid today sect st items).1).stored = st.stored := by
  intro items
  induction items with
  | nil => intro st; simp [post_items_loop]
  | cons m rest ih =>
    intro st
    simp only [post_items_loop]
    cases h : (post_message oracle st ch m.text (some m.blocks)).1 with
    | error e =>
      simp only [h]
      exact ⟨(ih _).1, (ih _).2⟩
    | ok r =>
      simp only [h, hs, Bool.false_and]
      refine ⟨by simp [(ih _).1], ?_⟩
      have := (ih (if False = true then
          store_digest_item d m (r.ts.getD "") ch rid today
            (post_message oracle st ch m.text (some m.blocks)).2
        else (post_message oracle st ch m.text (some m.blocks)).2)).2
      simpa [post_message_snd_stored] using this

theorem post_items_loop_congr (d₁ d₂ : DigestDistributor) (oracle : Oracle)
    (ch rid today sect : String) :
    ∀ (items : List DigestItemMessage) (st₁ st₂ : DistState),
      st₁.calls = st₂.calls →
      ((post_items_loop d₁ oracle ch rid today sect st₁ items).1).calls
          = ((post_items_loop d₂ oracle ch rid today sect st₂ items).1).calls
      ∧ (post_items_loop d₁ oracle ch rid today sect st₁ items).2.1
          = (post_items_loop d₂ oracle ch rid today sect st₂ items).2.1 := by
  intro items
  induction items with
  | nil => intro st₁ st₂ hc; simpa [post_items_loop] using hc
  | cons m rest ih =>
    intro st₁ st₂ hc
    simp only [post_items_loop, post_message_fst, hc]
    cases h : oracle st₂.calls (SlackCall.postMessage ch m.text (some m.blocks)) with
    | error e =>
      exact ih _ _ (by simp [post_message_snd_calls, hc])
    | ok r =>
      have hrec := ih
        (if d₁.hasFeedbackStore && r.ok then
          store_digest_item d₁ m (r.ts.getD "") ch rid today
            (post_message oracle st₁ ch m.text (some m.blocks)).2
        else (post_message oracle st₁ ch m.text (some m.blocks)).2)
        (if d₂.hasFeedbackStore && r.ok then
          store_digest_item d₂ m (r.ts.getD "") ch rid today
            (post_message oracle st₂ ch m.text (some m.blocks)).2
        else (post_message oracle st₂ ch m.text (some m.blocks)).2)
        (by
          have e₁ : (if d₁.hasFeedbackStore && r.ok then
              store_digest_item d₁ m (r.ts.getD "") ch rid today
                (post_message oracle st₁ ch m.text (some m.blocks)).2
            else (post_message oracle st₁ ch m.text (some m.blocks)).2).calls
              = st₁.calls ++ [SlackCall.postMessage ch m.text (some m.blocks)] := by
            split <;> simp [store_digest_item_calls, post_message_snd_calls]
          have e₂ : (if d₂.hasFeedbackStore && r.ok then
              store_digest_item d₂ m (r.ts.getD "") ch rid today
                (post_message oracle st₂ ch m.text (some m.blocks)).2
            else (post_message oracle st₂ ch m.text (some m.blocks)).2).calls
              = st₂.calls ++ [SlackCall.postMessage ch m.text (some m.blocks)] := by
            split <;> simp [store_digest_item_calls, post_message_snd_calls]
          rw [e₁, e₂, hc])
      have hcons := congrArg
        (List.cons (⟨m.digest_item_id, r.ts, r.ok, m.confidence, sect⟩ : ItemPostEntry))
        hrec.2
      exact ⟨hrec.1, hcons⟩

theorem post_team_details_stored (d : DigestDistributor) (oracle : Oracle)
    (ta : TeamAnalysis) (st : DistState) :
    (post_team_details d oracle ta st).2.stored = st.stored := by
  unfold post_team_details
  dsimp only
  split
  · rfl
  · cases h : (post_message oracle st
        (((d.config.channels).lookup ta.team_name).getD "")
        (d.formatter.format_team_details ta) none).1 <;> simp [h, post_message_snd_stored]

theorem post_team_details_calls_ext (d : DigestDistributor) (oracle : Oracle)
    (ta : TeamAnalysis) (st : DistState) :
    ∃ t, (post_team_details d oracle ta st).2.calls = st.calls ++ t := by
  unfold post_team_details
  dsimp only
  split
  · exact ⟨[], by simp⟩
  · refine ⟨[SlackCall.postMessage (((d.config.channels).lookup ta.team_name).getD "")
        (d.formatter.format_team_details ta) none], ?_⟩
    cases h : (post_message oracle st
        (((d.config.channels).lookup ta.team_name).getD "")
        (d.formatter.format_team_details ta) none).1 <;>
      simp [h, post_message_snd_calls]

theorem post_team_details_congr (d₁ d₂ : DigestDistributor) (oracle : Oracle)
    (ta : TeamAnalysis) (st₁ st₂ : DistState) (hc : d₁.config = d₂.config)
    (hf : d₁.formatter = d₂.formatter) (hcalls : st₁.calls = st₂.calls) :
    (post_team_details d₁ oracle ta st₁).1 = (post_team_details d₂ oracle ta st₂).1
    ∧ (post_team_details d₁ oracle ta st₁).2.calls
        = (post_team_details d₂ oracle ta st₂).2.calls := by
  unfold post_team_details
  rw [hc, hf]
  dsimp only
  split
  · exact ⟨rfl, hcalls⟩
  · simp only [post_message_fst, post_message_snd_calls, hcalls]
    cases h : oracle st₂.calls (SlackCall.postMessage
        (((d₂.config.channels).lookup ta.team_name).getD "")
        (d₂.formatter.format_team_details ta) none) <;>
      exact ⟨rfl, by simp [post_message_snd_calls, hcalls]⟩

theorem teams_loop_count (d : DigestDistributor) (oracle : Oracle) :
    ∀ (teams : List (String × TeamAnalysis)) (st : DistState),
      (teams_loop d oracle st teams).2.1.length
        + (teams_loop d oracle st teams).2.2.length = teams.length := by
  intro teams
  induction teams with
  | nil => intro st; simp [teams_loop]
  | cons p rest ih =>
    intro st
    simp only [teams_loop]
    cases h : (post_team_details d oracle p.2 st).1 with
    | error e =>
      simp only [h]
      simp only [List.length_cons]
      have := ih (post_team_details d oracle p.2 st).2
      omega
    | ok tp =>
      simp only [h]
      simp only [List.length_cons]
      have := ih (post_team_details d oracle p.2 st).2
      omega

theorem teams_loop_stored (d : DigestDistributor) (oracle : Oracle) :
    ∀ (teams : List (String × TeamAnalysis)) (st : DistState),
      (teams_loop d oracle st teams).1.stored = st.stored := by
  intro teams
  induction teams with
  | nil => intro st; simp [teams_loop]
  | cons p rest ih =>
    intro st
    simp only [teams_loop]
    cases h : (post_team_details d oracle p.2 st).1 <;>
      simp only [h] <;>
      rw [ih, post_team_details_stored]

theorem teams_loop_calls_ext (d : DigestDistributor) (oracle : Oracle) :
    ∀ (teams : List (String × TeamAnalysis)) (st : DistState),
      ∃ t, (teams_loop d oracle st teams).1.calls = st.calls ++ t := by
  intro teams
  induction teams with
  | nil => intro st; exact ⟨[], by simp [teams_loop]⟩
  | cons p rest ih =>
    intro st
    obtain ⟨t1, ht1⟩ := post_team_details_calls_ext d oracle p.2 st
    obtain ⟨t2, ht2⟩ := ih (post_team_details d oracle p.2 st).2
    refine ⟨t1 ++ t2, ?_⟩
    simp only [teams_loop]
    cases h : (post_team_details d oracle p.2 st).1 <;>
      simp only [h] <;> rw [ht2, ht1, List.append_assoc]

theorem teams_loop_congr (d₁ d₂ : DigestDistributor) (oracle : Oracle)
    (hc : d₁.config = d₂.config) (hf : d₁.formatter = d₂.formatter) :
    ∀ (teams : List (String × TeamAnalysis)) (st₁ st₂ : DistState),
      st₁.calls = st₂.calls →
      (teams_loop d₁ oracle st₁ teams).1.calls = (teams_loop d₂ oracle st₂ teams).1.calls
      ∧ (teams_loop d₁ oracle st₁ teams).2.1 = (teams_loop d₂ oracle st₂ teams).2.1
      ∧ (teams_loop d₁ oracle st₁ teams).2.2 = (teams_loop d₂ oracle st₂ teams).2.2 := by
  intro teams
  induction teams with
  | nil => intro st₁ st₂ hcalls; simpa [teams_loop] using hcalls
  | cons p rest ih =>
    intro st₁ st₂ hcalls
    have hpt := post_team_details_congr d₁ d₂ oracle p.2 st₁ st₂ hc hf hcalls
    have hrec := ih (post_team_details d₁ oracle p.2 st₁).2
      (post_team_details d₂ oracle p.2 st₂).2 hpt.2
    simp only [teams_loop]
    rw [hpt.1]
    cases h : (post_team_details d₂ oracle p.2 st₂).1 <;>
      simp only [h] <;>
      exact ⟨hrec.1, by rw [hrec.2.1], by rw [hrec.2.2]⟩

theorem send_leadership_dm_fst (d : DigestDistributor) (oracle : Oracle)
    (output : DigestOutput) (tas : List (String × TeamAnalysis)) (u : String)
    (st : DistState) :
    (send_leadership_dm d oracle output tas u st).1
      = oracle st.calls (SlackCall.sendDM u (d.formatter.format_leadership_dm output tas)) :=
  rfl

theorem send_leadership_dm_snd_calls (d : DigestDistributor) (oracle : Oracle)
    (output : DigestOutput) (tas : List (String × TeamAnalysis)) (u : String)
    (st : DistState) :
    (send_leadership_dm d oracle output tas u st).2.calls
      = st.calls ++ [SlackCall.sendDM u (d.formatter.format_leadership_dm output tas)] :=
  rfl

theorem send_leadership_dm_snd_stored (d : DigestDistributor) (oracle : Oracle)
    (output : DigestOutput) (tas : List (String × TeamAnalysis)) (u : String)
    (st : DistState) :
    (send_leadership_dm d oracle output tas u st).2.stored = st.stored :=
  rfl

theorem dms_loop_count (d : DigestDistributor) (oracle : Oracle)
    (output : DigestOutput) (tas : List (String × TeamAnalysis)) :
    ∀ (users : List String) (st : DistState),
      (dms_loop d oracle output tas st users).2.1.length
        + (dms_loop d oracle output tas st users).2.2.length = users.length := by
  intro users
  induction users with
  | nil => intro st; simp [dms_loop]
  | cons u rest ih =>
    intro st
    simp only [dms_loop]
    cases h : (send_leadership_dm d oracle output tas u st).1 with
    | error e =>
      simp only [h]
      simp only [List.length_cons]
      have := ih (send_leadership_dm d oracle output tas u st).2
      omega
    | ok r =>
      simp only [h]
      simp only [List.length_cons]
      have := ih (send_leadership_dm d oracle output tas u st).2
      omega

theorem dms_loop_stored (d : DigestDistributor) (oracle : Oracle)
    (output : DigestOutput) (tas : List (String × TeamAnalysis)) :
    ∀ (users : List String) (st : DistState),
      (dms_loop d oracle output tas st users).1.stored = st.stored := by
  intro users
  induction users with
  | nil => intro st; simp [dms_loop]
  | cons u rest ih =>
    intro st
    simp only [dms_loop]
    cases h : (send_leadership_dm d oracle output tas u st).1 <;>
      simp only [h] <;>
      rw [ih, send_leadership_dm_snd_stored]

theorem dms_loop_congr (d₁ d₂ : DigestDistributor) (oracle : Oracle)
    (output : DigestOutput) (tas : List (String × TeamAnalysis))
    (hc : d₁.config = d₂.config) (hf : d₁.formatter = d₂.formatter) :
    ∀ (users : List String) (st₁ st₂ : DistState),
      st₁.calls = st₂.calls →
      (dms_loop d₁ oracle output tas st₁ users).1.calls
          = (dms_loop d₂ oracle output tas st₂ users).1.calls
      ∧ (dms_loop d₁ oracle output tas st₁ users).2.1
          = (dms_loop d₂ oracle output tas st₂ users).2.1
      ∧ (dms_loop d₁ oracle output tas st₁ users).2.2
          = (dms_loop d₂ oracle output tas st₂ users).2.2 := by
  intro users
  induction users with
  | nil => intro st₁ st₂ hcalls; simpa [dms_loop] using hcalls
  | cons u rest ih =>
    intro st₁ st₂ hcalls
    have hd : (send_leadership_dm d₁ oracle output tas u st₁).1
        = (send_leadership_dm d₂ oracle output tas u st₂).1 := by
      rw [send_leadership_dm_fst, send_leadership_dm_fst, hcalls, hf]
    have hdc : (send_leadership_dm d₁ oracle output tas u st₁).2.calls
        = (send_leadership_dm d₂ oracle output tas u st₂).2.calls := by
      rw [send_leadership_dm_snd_calls, send_leadership_dm_snd_calls, hcalls, hf]
    have hrec := ih (send_leadership_dm d₁ oracle output tas u st₁).2
      (send_leadership_dm d₂ oracle output tas u st₂).2 hdc
    simp only [dms_loop]
    rw [hd]
    cases h : (send_leadership_dm d₂ oracle output tas u st₂).1 <;>
      simp only [h] <;>
      exact ⟨hrec.1, by rw [hrec.2.1], by rw [hrec.2.2]⟩

theorem post_main_calls_prefix (d : DigestDistributor) (oracle : Oracle)
    (output : DigestOutput) (tas : List (String × TeamAnalysis))
    (rid today : String) (conf : Option (List (String × ℚ))) (st : DistState) :
    ∃ t, (post_main_digest_with_items d oracle output tas rid today conf st).2.calls
      = st.calls ++ headerCall d output tas :: t := by
  unfold post_main_digest_with_items
  dsimp only
  have hpc : (post_message oracle st d.config.digest_channel
      (d.formatter.format_header_message output tas).1
      (some (d.formatter.format_header_message output tas).2)).2.calls
      = st.calls ++ [headerCall d output tas] := by
    rw [post_message_snd_calls]; rfl
  cases h : (post_message oracle st d.config.digest_channel
      (d.formatter.format_header_message output tas).1
      (some (d.formatter.format_header_message output tas).2)).1 with
  | error e =>
    exact ⟨[], by simp only [h]; rw [hpc]⟩
  | ok r =>
    simp only [h]
    split
    · refine ⟨(format_digest_items d.formatter tas rid conf).1.map
        (itemCall d.config.digest_channel), ?_⟩
      rw [post_items_loop_calls, hpc]
      simp
    · cases hd : (post_message oracle
          (post_items_loop d oracle d.config.digest_channel rid today "main"
            (post_message oracle st d.config.digest_channel
              (d.formatter.format_header_message output tas).1
              (some (d.formatter.format_header_message output tas).2)).2
            (format_digest_items d.formatter tas rid conf).1).1
          d.config.digest_channel divider_text (some divider_blocks)).1 with
      | error e2 =>
        refine ⟨(format_digest_items d.formatter tas rid conf).1.map
            (itemCall d.config.digest_channel) ++ [dividerCall d], ?_⟩
        simp only [hd]
        rw [post_message_snd_calls, post_items_loop_calls, hpc]
        simp [dividerCall]
      | ok r2 =>
        refine ⟨(format_digest_items d.formatter tas rid conf).1.map
            (itemCall d.config.digest_channel) ++ dividerCall d ::
            (format_digest_items d.formatter tas rid conf).2.1.map
              (itemCall d.config.digest_channel), ?_⟩
        simp only [hd]
        rw [post_items_loop_calls, post_message_snd_calls, post_items_loop_calls, hpc]
        simp [dividerCall]

theorem post_main_okOracle (d : DigestDistributor)
    (tsf : List SlackCall → SlackCall → Option String) (output : DigestOutput)
    (tas : List (String × TeamAnalysis)) (rid today : String)
    (conf : Option (List (String × ℚ))) (st : DistState) :
    (post_main_digest_with_items d (okOracle tsf) output tas rid today conf st).2.calls
      = st.calls ++ headerCall d output tas ::
          ((format_digest_items d.formatter tas rid conf).1.map (itemCall d.config.digest_channel)
            ++ (if (format_digest_items d.formatter tas rid conf).2.1.isEmpty then []
                else dividerCall d ::
                  (format_digest_items d.formatter tas rid conf).2.1.map
                    (itemCall d.config.digest_channel)))
    ∧ (∃ m, (post_main_digest_with_items d (okOracle tsf) output tas rid today conf st).1
          = Except.ok m
        ∧ m.items.map (fun e => (e.digest_item_id, e.ok, e.sect))
            = (format_digest_items d.formatter tas rid conf).1.map
                (fun x => (x.digest_item_id, true, "main"))
              ++ (format_digest_items d.formatter tas rid conf).2.1.map
                (fun x => (x.digest_item_id, true, "fyi"))
        ∧ m.items_stored = (if d.hasFeedbackStore then
            (format_digest_items d.formatter tas rid conf).1.length
              + (format_digest_items d.formatter tas rid conf).2.1.length else 0)
        ∧ (post_main_digest_with_items d (okOracle tsf) output tas rid today conf st).2.stored.length
            = st.stored.length + (if d.hasFeedbackStore && d.feedbackAvailable then
                (format_digest_items d.formatter tas rid conf).1.length
                  + (format_digest_items d.formatter tas rid conf).2.1.length else 0)) := by
  unfold post_main_digest_with_items
  simp only [post_message_fst, okOracle]
  cases hemp : (format_digest_items d.formatter tas rid conf).2.1.isEmpty with
  | true =>
    have hnil : (format_digest_items d.formatter tas rid conf).2.1 = [] :=
      List.isEmpty_iff.mp hemp
    rw [if_pos rfl]
    have hloop := post_items_loop_okOracle d tsf d.config.digest_channel rid today "main"
      (format_digest_items d.formatter tas rid conf).1
      (post_message (okOracle tsf) st d.config.digest_channel
        (d.formatter.format_header_message output tas).1
        (some (d.formatter.format_header_message output tas).2)).2
    refine ⟨?_, ⟨_, rfl, ?_, ?_, ?_⟩⟩
    · rw [post_items_loop_calls, post_message_snd_calls]
      simp [headerCall]
    · rw [hloop.1, hnil]
      simp
    · rw [hloop.2.1, hnil]
      simp
    · rw [hloop.2.2, post_message_snd_stored, hnil]
      simp
  | false =>
    rw [if_neg Bool.false_ne_true]
    have hloop1 := post_items_loop_okOracle d tsf d.config.digest_channel rid today "main"
      (format_digest_items d.formatter tas rid conf).1
      (post_message (okOracle tsf) st d.config.digest_channel
        (d.formatter.format_header_message output tas).1
        (some (d.formatter.format_header_message output tas).2)).2
    have hloop2 := post_items_loop_okOracle d tsf d.config.digest_channel rid today "fyi"
      (format_digest_items d.formatter tas rid conf).2.1
      (post_message (okOracle tsf)
        (post_items_loop d (okOracle tsf) d.config.digest_channel rid today "main"
          (post_message (okOracle tsf) st d.config.digest_channel
            (d.formatter.format_header_message output tas).1
            (some (d.formatter.format_header_message output tas).2)).2
          (format_digest_items d.formatter tas rid conf).1).1
        d.config.digest_channel divider_text (some divider_blocks)).2
    refine ⟨?_, ⟨_, rfl, ?_, ?_, ?_⟩⟩
    · rw [post_items_loop_calls, post_message_snd_calls, post_items_loop_calls,
        post_message_snd_calls]
      simp [headerCall, dividerCall]
    · simp only [List.map_append]
      rw [hloop1.1, hloop2.1]
    · rw [hloop1.2.1, hloop2.2.1]
      cases hs : d.hasFeedbackStore <;> simp
    · rw [hloop2.2.2, post_message_snd_stored, hloop1.2.2, post_message_snd_stored]
      cases hs : d.hasFeedbackStore <;> cases ha : d.feedbackAvailable <;> simp <;> omega

theorem post_main_count_ok (d : DigestDistributor) (oracle : Oracle)
    (output : DigestOutput) (tas : List (String × TeamAnalysis))
    (rid today : String) (conf : Option (List (String × ℚ))) (st : DistState)
    (hs : d.hasFeedbackStore = true) :
    ∀ m, (post_main_digest_with_items d oracle output tas rid today conf st).1 = Except.ok m →
      m.items_stored = m.items.countP (fun e => e.ok)
      ∧ (post_main_digest_with_items d oracle output tas rid today conf st).2.stored.length
          = st.stored.length + (if d.feedbackAvailable then m.items_stored else 0) := by
  intro m
  unfold post_main_digest_with_items
  dsimp only
  cases h : (post_message oracle st d.config.digest_channel
      (d.formatter.format_header_message output tas).1
      (some (d.formatter.format_header_message output tas).2)).1 with
  | error e => intro hcontra; exact absurd hcontra (by simp)
  | ok r =>
    simp only [h]
    split
    · intro hm
      have hm2 := (Except.ok.injEq _ _).mp hm
      subst hm2
      refine ⟨?_, ?_⟩
      · exact post_items_loop_count_ok d oracle d.config.digest_channel rid today "main" hs _ _
      · rw [post_items_loop_stored_len d oracle d.config.digest_channel rid today "main" hs,
          post_message_snd_stored]
    · cases hd : (post_message oracle
          (post_items_loop d oracle d.config.digest_channel rid today "main"
            (post_message oracle st d.config.digest_channel
              (d.formatter.format_header_message output tas).1
              (some (d.formatter.format_header_message output tas).2)).2
            (format_digest_items d.formatter tas rid conf).1).1
          d.config.digest_channel divider_text (some divider_blocks)).1 with
      | error e2 => intro hcontra; simp only [hd] at hcontra; exact absurd hcontra (by simp)
      | ok r2 =>
        simp only [hd]
        intro hm
        have hm2 := (Except.ok.injEq _ _).mp hm
        subst hm2
        refine ⟨?_, ?_⟩
        · rw [List.countP_append,
            post_items_loop_count_ok d oracle d.config.digest_channel rid today "main" hs,
            post_items_loop_count_ok d oracle d.config.digest_channel rid today "fyi" hs]
        · rw [post_items_loop_stored_len d oracle d.config.digest_channel rid today "fyi" hs,
            post_message_snd_stored,
            post_items_loop_stored_len d oracle d.config.digest_channel rid today "main" hs,
            post_message_snd_stored]
          cases ha : d.feedbackAvailable <;> simp <;> omega

theorem post_main_noStore (d : DigestDistributor) (oracle : Oracle)
    (output : DigestOutput) (tas : List (String × TeamAnalysis))
    (rid today : String) (conf : Option (List (String × ℚ))) (st : DistState)
    (hs : d.hasFeedbackStore = false) :
    (post_main_digest_with_items d oracle output tas rid today conf st).2.stored = st.stored
    ∧ (∀ m, (post_main_digest_with_items d oracle output tas rid today conf st).1
        = Except.ok m → m.items_stored = 0) := by
  unfold post_main_digest_with_items
  dsimp only
  cases h : (post_message oracle st d.config.digest_channel
      (d.formatter.format_header_message output tas).1
      (some (d.formatter.format_header_message output tas).2)).1 with
  | error e =>
    refine ⟨by rw [post_message_snd_stored], ?_⟩
    intro m hcontra; exact absurd hcontra (by simp)
  | ok r =>
    simp only [h]
    split
    · refine ⟨?_, ?_⟩
      · rw [(post_items_loop_noStore d oracle d.config.digest_channel rid today "main" hs _ _).2,
          post_message_snd_stored]
      · intro m hm
        have hm2 := (Except.ok.injEq _ _).mp hm
        subst hm2
        exact (post_items_loop_noStore d oracle d.config.digest_channel rid today "main" hs _ _).1
    · cases hd : (post_message oracle
          (post_items_loop d oracle d.config.digest_channel rid today "main"
            (post_message oracle st d.config.digest_channel
              (d.formatter.format_header_message output tas).1
              (some (d.formatter.format_header_message output tas).2)).2
            (format_digest_items d.formatter tas rid conf).1).1
          d.config.digest_channel divider_text (some divider_blocks)).1 with
      | error e2 =>
        simp only [hd]
        refine ⟨?_, ?_⟩
        · rw [post_message_snd_stored,
            (post_items_loop_noStore d oracle d.config.digest_channel rid today "main" hs _ _).2,
            post_message_snd_stored]
        · intro m hcontra; exact absurd hcontra (by simp)
      | ok r2 =>
        simp only [hd]
        refine ⟨?_, ?_⟩
        · rw [(post_items_loop_noStore d oracle d.config.digest_channel rid today "fyi" hs _ _).2,
            post_message_snd_stored,
            (post_items_loop_noStore d oracle d.config.digest_channel rid today "main" hs _ _).2,
            post_message_snd_stored]
        · intro m hm
          have hm2 := (Except.ok.injEq _ _).mp hm
          subst hm2
          rw [(post_items_loop_noStore d oracle d.config.digest_channel rid today "main" hs _ _).1,
            (post_items_loop_noStore d oracle d.config.digest_channel rid today "fyi" hs _ _).1]

theorem post_main_congr (d₁ d₂ : DigestDistributor) (oracle : Oracle)
    (output : DigestOutput) (tas : List (String × TeamAnalysis))
    (rid today : String) (conf : Option (List (String × ℚ)))
    (st₁ st₂ : DistState) (hc : d₁.config = d₂.config)
    (hf : d₁.formatter = d₂.formatter) (hcalls : st₁.calls = st₂.calls) :
    (post_main_digest_with_items d₁ oracle output tas rid today conf st₁).2.calls
      = (post_main_digest_with_items d₂ oracle output tas rid today conf st₂).2.calls
    ∧ Except.map (fun m => (m.header, m.items))
        (post_main_digest_with_items d₁ oracle output tas rid today conf st₁).1
      = Except.map (fun m => (m.header, m.items))
        (post_main_digest_with_items d₂ oracle output tas rid today conf st₂).1 := by
  unfold post_main_digest_with_items
  rw [hc, hf]
  dsimp only
  have hh : (post_message oracle st₁ d₂.config.digest_channel
      (d₂.formatter.format_header_message output tas).1
      (some (d₂.formatter.format_header_message output tas).2)).1
      = (post_message oracle st₂ d₂.config.digest_channel
      (d₂.formatter.format_header_message output tas).1
      (some (d₂.formatter.format_header_message output tas).2)).1 := by
    rw [post_message_fst, post_message_fst, hcalls]
  rw [hh]
  cases h : (post_message oracle st₂ d₂.config.digest_channel
      (d₂.formatter.format_header_message output tas).1
      (some (d₂.formatter.format_header_message output tas).2)).1 with
  | error e =>
    dsimp only
    exact ⟨by rw [post_message_snd_calls, post_message_snd_calls, hcalls], rfl⟩
  | ok r =>
    dsimp only
    have hpm : (post_message oracle st₁ d₂.config.digest_channel
        (d₂.formatter.format_header_message output tas).1
        (some (d₂.formatter.format_header_message output tas).2)).2.calls
        = (post_message oracle st₂ d₂.config.digest_channel
        (d₂.formatter.format_header_message output tas).1
        (some (d₂.formatter.format_header_message output tas).2)).2.calls := by
      rw [post_message_snd_calls, post_message_snd_calls, hcalls]
    have hcongr := post_items_loop_congr d₁ d₂ oracle d₂.config.digest_channel rid today
      "main" (format_digest_items d₂.formatter tas rid conf).1
      (post_message oracle st₁ d₂.config.digest_channel
        (d₂.formatter.format_header_message output tas).1
        (some (d₂.formatter.format_header_message output tas).2)).2
      (post_message oracle st₂ d₂.config.digest_channel
        (d₂.formatter.format_header_message output tas).1
        (some (d₂.formatter.format_header_message output tas).2)).2 hpm
    split
    · refine ⟨hcongr.1, ?_⟩
      simp only [Except.map]
      rw [hcongr.2]
    · have hdd : (post_message oracle
          (post_items_loop d₁ oracle d₂.config.digest_channel rid today "main"
            (post_message oracle st₁ d₂.config.digest_channel
              (d₂.formatter.format_header_message output tas).1
              (some (d₂.formatter.format_header_message output tas).2)).2
            (format_digest_items d₂.formatter tas rid conf).1).1
          d₂.config.digest_channel divider_text (some divider_blocks)).1
          = (post_message oracle
          (post_items_loop d₂ oracle d₂.config.digest_channel rid today "main"
            (post_message oracle st₂ d₂.config.digest_channel
              (d₂.formatter.format_header_message output tas).1
              (some (d₂.formatter.format_header_message output tas).2)).2
            (format_digest_items d₂.formatter tas rid conf).1).1
          d₂.config.digest_channel divider_text (some divider_blocks)).1 := by
        rw [post_message_fst, post_message_fst, hcongr.1]
      rw [hdd]
      cases hd : (post_message oracle
          (post_items_loop d₂ oracle d₂.config.digest_channel rid today "main"
            (post_message oracle st₂ d₂.config.digest_channel
              (d₂.formatter.format_header_message output tas).1
              (some (d₂.formatter.format_header_message output tas).2)).2
            (format_digest_items d₂.formatter tas rid conf).1).1
          d₂.config.digest_channel divider_text (some divider_blocks)).1 with
      | error e2 =>
        dsimp only
        exact ⟨by rw [post_message_snd_calls, post_message_snd_calls, hcongr.1], rfl⟩
      | ok r2 =>
        dsimp only
        have hdc : (post_message oracle
            (post_items_loop d₁ oracle d₂.config.digest_channel rid today "main"
              (post_message oracle st₁ d₂.config.digest_channel
                (d₂.formatter.format_header_message output tas).1
                (some (d₂.formatter.format_header_message output tas).2)).2
              (format_digest_items d₂.formatter tas rid conf).1).1
            d₂.config.digest_channel divider_text (some divider_blocks)).2.calls
            = (post_message oracle
            (post_items_loop d₂ oracle d₂.config.digest_channel rid today "main"
              (post_message oracle st₂ d₂.config.digest_channel
                (d₂.formatter.format_header_message output tas).1
                (some (d₂.formatter.format_header_message output tas).2)).2
              (format_digest_items d₂.formatter tas rid conf).1).1
            d₂.config.digest_channel divider_text (some divider_blocks)).2.calls := by
          rw [post_message_snd_calls, post_message_snd_calls, hcongr.1]
        have hlcongr := post_items_loop_congr d₁ d₂ oracle d₂.config.digest_channel rid today
          "fyi" (format_digest_items d₂.formatter tas rid conf).2.1
          (post_message oracle
            (post_items_loop d₁ oracle d₂.config.digest_channel rid today "main"
              (post_message oracle st₁ d₂.config.digest_channel
                (d₂.formatter.format_header_message output tas).1
                (some (d₂.formatter.format_header_message output tas).2)).2
              (format_digest_items d₂.formatter tas rid conf).1).1
            d₂.config.digest_channel divider_text (some divider_blocks)).2
          (post_message oracle
            (post_items_loop d₂ oracle d₂.config.digest_channel rid today "main"
              (post_message oracle st₂ d₂.config.digest_channel
                (d₂.formatter.format_header_message output tas).1
                (some (d₂.formatter.format_header_message output tas).2)).2
              (format_digest_items d₂.formatter tas rid conf).1).1
            d₂.config.digest_channel divider_text (some divider_blocks)).2 hdc
        refine ⟨hlcongr.1, ?_⟩
        simp only [Except.map]
        rw [hcongr.2, hlcongr.2]

theorem dms_loop_calls_ext (d : DigestDistributor) (oracle : Oracle)
    (output : DigestOutput) (tas : List (String × TeamAnalysis)) :
    ∀ (users : List String) (st : DistState),
      ∃ t, (dms_loop d oracle output tas st users).1.calls = st.calls ++ t := by
  intro users
  induction users with
  | nil => intro st; exact ⟨[], by simp [dms_loop]⟩
  | cons u rest ih =>
    intro st
    obtain ⟨t2, ht2⟩ := ih (send_leadership_dm d oracle output tas u st).2
    refine ⟨SlackCall.sendDM u (d.formatter.format_leadership_dm output tas) :: t2, ?_⟩
    simp only [dms_loop]
    cases h : (send_leadership_dm d oracle output tas u st).1 <;>
      simp only [h] <;>
      rw [ht2, send_leadership_dm_snd_calls] <;> simp

/-! ## Claim theorems: distribution engine -/

/-- C7: when every client call succeeds, the main-channel trace is the
header, then every high-confidence item, then — exactly when the
low-confidence bucket is non-empty — one divider message followed by
every low-confidence item; excluded items never appear. Each posted item
(low-confidence ones through the same per-item step, section `fyi`)
yields an ok entry, and one DigestItem is stored per posted item when a
store is configured. For confidences [0.9, 0.5, 0.1] against thresholds
high = 0.7, low = 0.3 the buckets are high = [0.9], low = [0.5],
excluded = [0.1]. -/
theorem C7_low_confidence_divider (d : DigestDistributor)
    (tsf : List SlackCall → SlackCall → Option String) (output : DigestOutput)
    (tas : List (String × TeamAnalysis)) (rid today : String)
    (conf : Option (List (String × ℚ))) (st : DistState) :
    ((post_main_digest_with_items d (okOracle tsf) output tas rid today conf st).2.calls
      = st.calls ++ headerCall d output tas ::
          ((format_digest_items d.formatter tas rid conf).1.map (itemCall d.config.digest_channel)
            ++ (if (format_digest_items d.formatter tas rid conf).2.1.isEmpty then []
                else dividerCall d ::
                  (format_digest_items d.formatter tas rid conf).2.1.map
                    (itemCall d.config.digest_channel))))
    ∧ (∃ m, (post_main_digest_with_items d (okOracle tsf) output tas rid today conf st).1
          = Except.ok m
        ∧ m.items.map (fun e => (e.digest_item_id, e.ok, e.sect))
            = (format_digest_items d.formatter tas rid conf).1.map
                (fun x => (x.digest_item_id, true, "main"))
              ++ (format_digest_items d.formatter tas rid conf).2.1.map
                (fun x => (x.digest_item_id, true, "fyi"))
        ∧ m.items_stored = (if d.hasFeedbackStore then
            (format_digest_items d.formatter tas rid conf).1.length
              + (format_digest_items d.formatter tas rid conf).2.1.length else 0)
        ∧ (post_main_digest_with_items d (okOracle tsf) output tas rid today conf st).2.stored.length
            = st.stored.length + (if d.hasFeedbackStore && d.feedbackAvailable then
                (format_digest_items d.formatter tas rid conf).1.length
                  + (format_digest_items d.formatter tas rid conf).2.1.length else 0))
    ∧ format_digest_items cFormatter cTasScenario "run1" none
        = ([cMsg "a" (mkRat 9 10)], [cMsg "b" (mkRat 5 10)], [cMsg "c" (mkRat 1 10)]) :=
  ⟨(post_main_okOracle d tsf output tas rid today conf st).1,
   (post_main_okOracle d tsf output tas rid today conf st).2,
   by decide⟩

/-- C8: `distribute` always returns the full result record; starting from
a fresh state the first client call is the header post, the returned run
id is the supplied one (or the generated default), and failures are
fault-isolated: the error list has exactly one entry per failed section —
at most one for the main digest, one per raised team post with every
other team still processed, one per raised DM with every other recipient
still processed. -/
theorem C8_distribute_fault_isolation (d : DigestDistributor) (oracle : Oracle)
    (output : DigestOutput) (tas : List (String × TeamAnalysis))
    (rid_opt : Option String) (conf : Option (List (String × ℚ)))
    (nrid today : String) :
    (distribute d oracle output tas rid_opt conf nrid today
        { calls := [], stored := [] }).1.run_id = rid_opt.getD nrid
    ∧ (distribute d oracle output tas rid_opt conf nrid today
        { calls := [], stored := [] }).2.calls.head?
        = some (headerCall d output tas)
    ∧ ∃ me te de, me ≤ 1
        ∧ (distribute d oracle output tas rid_opt conf nrid today
            { calls := [], stored := [] }).1.errors.length = me + te + de
        ∧ (distribute d oracle output tas rid_opt conf nrid today
            { calls := [], stored := [] }).1.team_posts.length + te = tas.length
        ∧ (distribute d oracle output tas rid_opt conf nrid today
            { calls := [], stored := [] }).1.dms.length + de
            = d.config.leadership_users.length := by
  unfold distribute
  dsimp only
  refine ⟨rfl, ?_, ?_⟩
  · obtain ⟨t1, h1⟩ := post_main_calls_prefix d oracle output tas (rid_opt.getD nrid)
      today conf { calls := [], stored := [] }
    obtain ⟨t2, h2⟩ := teams_loop_calls_ext d oracle tas
      (post_main_digest_with_items d oracle output tas (rid_opt.getD nrid) today conf
        { calls := [], stored := [] }).2
    obtain ⟨t3, h3⟩ := dms_loop_calls_ext d oracle output tas d.config.leadership_users
      (teams_loop d oracle
        (post_main_digest_with_items d oracle output tas (rid_opt.getD nrid) today conf
          { calls := [], stored := [] }).2 tas).1
    rw [h3, h2, h1]
    simp
  · have hteams := teams_loop_count d oracle tas
      (post_main_digest_with_items d oracle output tas (rid_opt.getD nrid) today conf
        { calls := [], stored := [] }).2
    have hdms := dms_loop_count d oracle output tas d.config.leadership_users
      (teams_loop d oracle
        (post_main_digest_with_items d oracle output tas (rid_opt.getD nrid) today conf
          { calls := [], stored := [] }).2 tas).1
    cases hm : (post_main_digest_with_items d oracle output tas (rid_opt.getD nrid)
        today conf { calls := [], stored := [] }).1 with
    | ok m =>
      dsimp only
      refine ⟨0, (teams_loop d oracle
          (post_main_digest_with_items d oracle output tas (rid_opt.getD nrid) today conf
            { calls := [], stored := [] }).2 tas).2.2.length,
        (dms_loop d oracle output tas
          (teams_loop d oracle
            (post_main_digest_with_items d oracle output tas (rid_opt.getD nrid) today conf
              { calls := [], stored := [] }).2 tas).1
          d.config.leadership_users).2.2.length, by omega, ?_, ?_, ?_⟩
      · simp [List.length_append]
      · exact hteams
      · exact hdms
    | error e =>
      dsimp only
      refine ⟨1, (teams_loop d oracle
          (post_main_digest_with_items d oracle output tas (rid_opt.getD nrid) today conf
            { calls := [], stored := [] }).2 tas).2.2.length,
        (dms_loop d oracle output tas
          (teams_loop d oracle
            (post_main_digest_with_items d oracle output tas (rid_opt.getD nrid) today conf
              { calls := [], stored := [] }).2 tas).1
          d.config.leadership_users).2.2.length, by omega, ?_, ?_, ?_⟩
      · simp [List.length_append]
        omega
      · exact hteams
      · exact hdms

/-- C9: `preview` returns its effect state untouched — it makes no client
call and writes nothing to the store — and the high/low/excluded
bucketing it reports is exactly `format_digest_items` applied to the same
team analyses, resolved run id and confidence overrides; `distribute` on
the same inputs posts its item messages from exactly that same bucketing
call (shown for a client that accepts every message). -/
theorem C9_preview_refines_distribute (d : DigestDistributor) (oracle : Oracle)
    (tsf : List SlackCall → SlackCall → Option String) (output : DigestOutput)
    (tas : List (String × TeamAnalysis)) (rid_opt : Option String)
    (conf : Option (List (String × ℚ))) (nrid today : String) (st : DistState) :
    ((preview d oracle output tas rid_opt conf nrid st).2 = st)
    ∧ (preview d oracle output tas rid_opt conf nrid st).1.high_confidence_items
        = (format_digest_items d.formatter tas (rid_opt.getD nrid) conf).1.map
            (fun m => { id := m.digest_item_id, text := m.text,
                        confidence := m.confidence })
    ∧ (preview d oracle output tas rid_opt conf nrid st).1.low_confidence_items
        = (format_digest_items d.formatter tas (rid_opt.getD nrid) conf).2.1.map
            (fun m => { id := m.digest_item_id, text := m.text,
                        confidence := m.confidence })
    ∧ (preview d oracle output tas rid_opt conf nrid st).1.excluded_items
        = (format_digest_items d.formatter tas (rid_opt.getD nrid) conf).2.2
    ∧ ∃ t, (distribute d (okOracle tsf) output tas rid_opt conf nrid today st).2.calls
        = (st.calls ++ headerCall d output tas ::
            ((format_digest_items d.formatter tas (rid_opt.getD nrid) conf).1.map
                (itemCall d.config.digest_channel)
              ++ (if (format_digest_items d.formatter tas (rid_opt.getD nrid) conf).2.1.isEmpty
                  then []
                  else dividerCall d ::
                    (format_digest_items d.formatter tas (rid_opt.getD nrid) conf).2.1.map
                      (itemCall d.config.digest_channel)))) ++ t := by
  refine ⟨rfl, rfl, rfl, rfl, ?_⟩
  obtain ⟨t2, h2⟩ := teams_loop_calls_ext d (okOracle tsf) tas
    (post_main_digest_with_items d (okOracle tsf) output tas (rid_opt.getD nrid) today conf st).2
  obtain ⟨t3, h3⟩ := dms_loop_calls_ext d (okOracle tsf) output tas d.config.leadership_users
    (teams_loop d (okOracle tsf)
      (post_main_digest_with_items d (okOracle tsf) output tas (rid_opt.getD nrid) today conf
        st).2 tas).1
  refine ⟨t2 ++ t3, ?_⟩
  unfold distribute
  dsimp only
  rw [h3, h2, (post_main_okOracle d tsf output tas (rid_opt.getD nrid) today conf st).1]
  simp [List.append_assoc]

/-- C10: distributing without a feedback store makes exactly the same
client calls and returns the same main post, item entries, team posts,
DMs and errors as with one, but stores nothing and reports
`items_stored = 0`; with a store configured, `items_stored` counts
exactly the item posts whose response reports ok, and (when the main
section completed) the store grows by exactly that count — and only when
the feedback module is importable. -/
theorem C10_store_optional_frame (d : DigestDistributor) (oracle : Oracle)
    (output : DigestOutput) (tas : List (String × TeamAnalysis))
    (rid_opt : Option String) (conf : Option (List (String × ℚ)))
    (nrid today : String) (st : DistState) :
    ((distribute (withoutStore d) oracle output tas rid_opt conf nrid today st).2.calls
      = (distribute (withStore d) oracle output tas rid_opt conf nrid today st).2.calls)
    ∧ (distribute (withoutStore d) oracle output tas rid_opt conf nrid today st).1.main_post
      = (distribute (withStore d) oracle output tas rid_opt conf nrid today st).1.main_post
    ∧ (distribute (withoutStore d) oracle output tas rid_opt conf nrid today st).1.item_posts
      = (distribute (withStore d) oracle output tas rid_opt conf nrid today st).1.item_posts
    ∧ (distribute (withoutStore d) oracle output tas rid_opt conf nrid today st).1.team_posts
      = (distribute (withStore d) oracle output tas rid_opt conf nrid today st).1.team_posts
    ∧ (distribute (withoutStore d) oracle output tas rid_opt conf nrid today st).1.dms
      = (distribute (withStore d) oracle output tas rid_opt conf nrid today st).1.dms
    ∧ (distribute (withoutStore d) oracle output tas rid_opt conf nrid today st).1.errors
      = (distribute (withStore d) oracle output tas rid_opt conf nrid today st).1.errors
    ∧ (distribute (withoutStore d) oracle output tas rid_opt conf nrid today st).1.items_stored
      = 0
    ∧ (distribute (withoutStore d) oracle output tas rid_opt conf nrid today st).2.stored
      = st.stored
    ∧ (distribute (withStore d) oracle output tas rid_opt conf nrid today st).1.items_stored
      = ((distribute (withStore d) oracle output tas rid_opt conf nrid today
          st).1.item_posts).countP (fun e => e.ok)
    ∧ ((distribute (withStore d) oracle output tas rid_opt conf nrid today
          st).1.main_post.isSome →
        (distribute (withStore d) oracle output tas rid_opt conf nrid today st).2.stored.length
          = st.stored.length + (if d.feedbackAvailable then
              (distribute (withStore d) oracle output tas rid_opt conf nrid today
                st).1.items_stored else 0)) := by
  have hmc := post_main_congr (withoutStore d) (withStore d) oracle output tas
    (rid_opt.getD nrid) today conf st st rfl rfl rfl
  have hteams := teams_loop_congr (withoutStore d) (withStore d) oracle rfl rfl tas
    (post_main_digest_with_items (withoutStore d) oracle output tas (rid_opt.getD nrid)
      today conf st).2
    (post_main_digest_with_items (withStore d) oracle output tas (rid_opt.getD nrid)
      today conf st).2 hmc.1
  have hdms := dms_loop_congr (withoutStore d) (withStore d) oracle output tas rfl rfl
    ((withoutStore d).config.leadership_users)
    (teams_loop (withoutStore d) oracle
      (post_main_digest_with_items (withoutStore d) oracle output tas (rid_opt.getD nrid)
        today conf st).2 tas).1
    (teams_loop (withStore d) oracle
      (post_main_digest_with_items (withStore d) oracle output tas (rid_opt.getD nrid)
        today conf st).2 tas).1 hteams.1
  have huser : (withoutStore d).config.leadership_users
      = (withStore d).config.leadership_users := rfl
  have hsf : (withoutStore d).hasFeedbackStore = false := rfl
  have hst : (withStore d).hasFeedbackStore = true := rfl
  unfold distribute
  dsimp only
  rw [← huser]
  cases ha : (post_main_digest_with_items (withoutStore d) oracle output tas
      (rid_opt.getD nrid) today conf st).1 with
  | ok mF =>
    cases hb : (post_main_digest_with_items (withStore d) oracle output tas
        (rid_opt.getD nrid) today conf st).1 with
    | ok mT =>
      dsimp only
      have hpair : (mF.header, mF.items) = (mT.header, mT.items) := by
        have h2 := hmc.2
        rw [ha, hb] at h2
        simpa [Except.map] using h2
      have hhead : mF.header = mT.header := congrArg Prod.fst hpair
      have hitems : mF.items = mT.items := congrArg Prod.snd hpair
      refine ⟨(hdms.1 : _), by rw [hhead], hitems, hteams.2.1,
        hdms.2.1, by rw [hteams.2.2, hdms.2.2],
        (post_main_noStore (withoutStore d) oracle output tas (rid_opt.getD nrid)
          today conf st hsf).2 mF ha,
        by rw [dms_loop_stored, teams_loop_stored,
          (post_main_noStore (withoutStore d) oracle output tas (rid_opt.getD nrid)
            today conf st hsf).1],
        ?_, ?_⟩
      · rw [(post_main_count_ok (withStore d) oracle output tas (rid_opt.getD nrid)
          today conf st hst mT hb).1]
      · intro _
        rw [dms_loop_stored, teams_loop_stored,
          (post_main_count_ok (withStore d) oracle output tas (rid_opt.getD nrid)
            today conf st hst mT hb).2]
        rfl
    | error eT =>
      exfalso
      have h2 := hmc.2
      rw [ha, hb] at h2
      simp [Except.map] at h2
  | error eF =>
    cases hb : (post_main_digest_with_items (withStore d) oracle output tas
        (rid_opt.getD nrid) today conf st).1 with
    | ok mT =>
      exfalso
      have h2 := hmc.2
      rw [ha, hb] at h2
      simp [Except.map] at h2
    | error eT =>
      dsimp only
      have herr : eF = eT := by
        have h2 := hmc.2
        rw [ha, hb] at h2
        simpa [Except.map] using h2
      refine ⟨(hdms.1 : _), rfl, rfl, hteams.2.1, hdms.2.1,
        by rw [herr, hteams.2.2, hdms.2.2], rfl,
        by rw [dms_loop_stored, teams_loop_stored,
          (post_main_noStore (withoutStore d) oracle output tas (rid_opt.getD nrid)
            today conf st hsf).1], by simp, ?_⟩
      · intro hcontra
        simp at hcontra

/-- C1 as stated is false on the code: in a five-item batch (store
configured) where the external post call raises for exactly the third
item and succeeds for the others, the result has 4 item-post entries and
`items_stored = 4`, but the aggregated error list is empty — the
per-item `except` only logs a warning and appends nothing to
`results["errors"]` (and the failed item appears in no result list). -/
theorem C1_error_list_empty_counterexample :
    (distribute cDist (failAt 3) cOut cTasFive (some "run1") none "nrid" "2026-10-12"
        { calls := [], stored := [] }).1.item_posts.length = 4
    ∧ (distribute cDist (failAt 3) cOut cTasFive (some "run1") none "nrid" "2026-10-12"
        { calls := [], stored := [] }).1.items_stored = 4
    ∧ (distribute cDist (failAt 3) cOut cTasFive (some "run1") none "nrid" "2026-10-12"
        { calls := [], stored := [] }).1.errors.length = 0
    ∧ (distribute cDist (failAt 3) cOut cTasFive (some "run1") none "nrid" "2026-10-12"
        { calls := [], stored := [] }).2.calls.length = 6 := by
  decide

/-- C1 amended: in a five-item high-confidence batch with a feedback
store configured, when the post call raises for exactly one item (any of
the five positions) and succeeds for the rest, the result contains 4
successful item-post entries, `items_stored = 4`, the aggregated error
list stays empty (the failure is only logged), all 6 posts (header plus
five items) are attempted — the failure does not block subsequent items —
and 4 digest items are stored. -/
theorem C1_one_failure_isolation (i : Fin 5) :
    (distribute cDist (failAt (i.val + 1)) cOut cTasFive (some "run1") none "nrid"
        "2026-10-12" { calls := [], stored := [] }).1.item_posts.length = 4
    ∧ (distribute cDist (failAt (i.val + 1)) cOut cTasFive (some "run1") none "nrid"
        "2026-10-12" { calls := [], stored := [] }).1.items_stored = 4
    ∧ (distribute cDist (failAt (i.val + 1)) cOut cTasFive (some "run1") none "nrid"
        "2026-10-12" { calls := [], stored := [] }).1.errors = []
    ∧ (distribute cDist (failAt (i.val + 1)) cOut cTasFive (some "run1") none "nrid"
        "2026-10-12" { calls := [], stored := [] }).2.calls.length = 6
    ∧ (distribute cDist (failAt (i.val + 1)) cOut cTasFive (some "run1") none "nrid"
        "2026-10-12" { calls := [], stored := [] }).2.stored.length = 4 := by
  fin_cases i <;> decide

/-- C1 witness: the amended statement at failing position 3 (item index 2). -/
theorem C1_one_failure_isolation_witness :
    (distribute cDist (failAt 3) cOut cTasFive (some "run1") none "nrid"
        "2026-10-12" { calls := [], stored := [] }).1.item_posts.length = 4
    ∧ (distribute cDist (failAt 3) cOut cTasFive (some "run1") none "nrid"
        "2026-10-12" { calls := [], stored := [] }).1.items_stored = 4
    ∧ (distribute cDist (failAt 3) cOut cTasFive (some "run1") none "nrid"
        "2026-10-12" { calls := [], stored := [] }).1.errors = []
    ∧ (distribute cDist (failAt 3) cOut cTasFive (some "run1") none "nrid"
        "2026-10-12" { calls := [], stored := [] }).2.calls.length = 6
    ∧ (distribute cDist (failAt 3) cOut cTasFive (some "run1") none "nrid"
        "2026-10-12" { calls := [], stored := [] }).2.stored.length = 4 :=
  C1_one_failure_isolation 2

/-- C7 witness: the scenario-C bucket evaluation through the theorem. -/
theorem C7_low_confidence_divider_witness :
    format_digest_items cFormatter cTasScenario "run1" none
      = ([cMsg "a" (mkRat 9 10)], [cMsg "b" (mkRat 5 10)], [cMsg "c" (mkRat 1 10)]) :=
  (C7_low_confidence_divider cDist (fun _ _ => some "ts") cOut cTasScenario "run1"
    "2026-10-12" none { calls := [], stored := [] }).2.2

/-- C8 witness: the run id of a concrete distribution run. -/
theorem C8_distribute_fault_isolation_witness :
    (distribute cDist (failAt 3) cOut cTasFive (some "run1") none "nrid" "2026-10-12"
        { calls := [], stored := [] }).1.run_id = (some "run1").getD "nrid" :=
  (C8_distribute_fault_isolation cDist (failAt 3) cOut cTasFive (some "run1") none
    "nrid" "2026-10-12").1

/-- C9 witness: a concrete preview leaves the effect state untouched. -/
theorem C9_preview_refines_distribute_witness :
    (preview cDist (failAt 99) cOut cTasScenario (some "run1") none "nrid"
        { calls := [], stored := [] }).2 = { calls := [], stored := [] } :=
  (C9_preview_refines_distribute cDist (failAt 99) (fun _ _ => some "ts") cOut
    cTasScenario (some "run1") none "nrid" "2026-10-12" { calls := [], stored := [] }).1

/-- C10 witness: on a concrete all-ok run with a store configured, the
store grows by exactly the reported `items_stored`, discharging the
main-section hypothesis concretely. -/
theorem C10_store_optional_frame_witness :
    (distribute (withStore cDist) (okOracle (fun _ _ => some "ts")) cOut cTasFive
        (some "run1") none "nrid" "2026-10-12"
        { calls := [], stored := [] }).2.stored.length
      = ({ calls := [], stored := [] } : DistState).stored.length
        + (if cDist.feedbackAvailable then
            (distribute (withStore cDist) (okOracle (fun _ _ => some "ts")) cOut cTasFive
              (some "run1") none "nrid" "2026-10-12"
              { calls := [], stored := [] }).1.items_stored else 0) :=
  (C10_store_optional_frame cDist (okOracle (fun _ _ => some "ts")) cOut cTasFive
    (some "run1") none "nrid" "2026-10-12"
    { calls := [], stored := [] }).2.2.2.2.2.2.2.2.2 (by decide)

end ThreadBrief
